import Mathlib

/-!
Shallow embedding of the PHRIS (Predictive Human Risk Intelligence System)
risk-assessment core, translated from the repository's Python sources:
zone_utils.py (zone geometry), risk_engine.py (per-identity profiles and the
multi-factor risk scorer), tracker_utils.py (speed estimation) and main.py
(critical-alert throttling). Wall-clock reads (time.time()) are threaded as an
explicit rational `now` parameter; Python floats are embedded as rationals,
except the tracker's Euclidean distance which uses real square roots.
-/

namespace PHRIS

/-- One iteration of the cv2.pointPolygonTest loop (OpenCV geometry.cpp,
integer contour, measureDist=False), as called by
zone_utils.is_person_in_danger_zone. The state carries the previous vertex v0
and the edge-crossing counter; `none` is the absorbing early-return state
meaning the query point ip was found on an edge. Modelled from the cv2 library
dependency, which is outside this repository. -/
def ppStep (ip : ℤ × ℤ) : Option ((ℤ × ℤ) × ℕ) → (ℤ × ℤ) → Option ((ℤ × ℤ) × ℕ)
  | none, _ => none
  | some (v0, counter), v =>
    if (v0.2 ≤ ip.2 ∧ v.2 ≤ ip.2) ∨ (ip.2 < v0.2 ∧ ip.2 < v.2) ∨
        (v0.1 < ip.1 ∧ v.1 < ip.1) then
      if ip.2 = v.2 ∧ (ip.1 = v.1 ∨ (ip.2 = v0.2 ∧
          ((v0.1 ≤ ip.1 ∧ ip.1 ≤ v.1) ∨ (v.1 ≤ ip.1 ∧ ip.1 ≤ v0.1)))) then none
      else some (v, counter)
    else
      let dist := (ip.2 - v0.2) * (v.1 - v0.1) - (ip.1 - v0.1) * (v.2 - v0.2)
      if dist = 0 then none
      else some (v, counter + if (if v.2 < v0.2 then -dist else dist) > 0 then 1 else 0)

/-- cv2.pointPolygonTest with measureDist=False on an integer contour: the loop
starts with the previous vertex set to the polygon's last vertex; an on-edge
point yields 0 (the C early return, here the absorbing `none` state), otherwise
the crossing-counter parity classifies the point: +1 inside, -1 outside. -/
def pointPolygonTest (contour : List (ℤ × ℤ)) (ip : ℤ × ℤ) : ℤ :=
  match contour.foldl (ppStep ip) (some (contour.getLastD (0, 0), 0)) with
  | none => 0
  | some (_, counter) => if counter % 2 = 0 then -1 else 1

/-- One entry of zone_utils.DANGER_ZONES: polygon corner points, BGR color,
base risk, display name and description. -/
structure ZoneInfo where
  coords : List (ℤ × ℤ)
  color : ℤ × ℤ × ℤ
  risk : ℤ
  name : String
  description : String

/-- zone_utils.DANGER_ZONES, in declaration order (Python dicts preserve
insertion order): HEAVY_MACHINERY (risk 40), ELECTRICAL (risk 35),
CHEMICAL (risk 30). -/
def DANGER_ZONES : List (String × ZoneInfo) :=
  [("HEAVY_MACHINERY",
    { coords := [(300, 200), (900, 200), (900, 600), (300, 600)]
      color := (0, 0, 255)
      risk := 40
      name := "HEAVY MACHINERY AREA"
      description := "Industrial machinery - highest danger" }),
   ("ELECTRICAL",
    { coords := [(500, 150), (700, 150), (700, 400), (500, 400)]
      color := (0, 165, 255)
      risk := 35
      name := "ELECTRICAL AREA"
      description := "High voltage equipment" }),
   ("CHEMICAL",
    { coords := [(100, 100), (250, 100), (250, 300), (100, 300)]
      color := (0, 255, 255)
      risk := 30
      name := "CHEMICAL STORAGE"
      description := "Hazardous materials area" })]

/-- Loop body of zone_utils.is_person_in_danger_zone: test the remaining zones
in order, returning the first one whose polygon contains the point
(pointPolygonTest result ≥ 0, so edge points count as inside). -/
def zoneScan (p : ℤ × ℤ) : List (String × ZoneInfo) → Bool × String × ℤ
  | [] => (false, "SAFE", 0)
  | (zone_name, zone_info) :: rest =>
    if pointPolygonTest zone_info.coords p ≥ 0 then (true, zone_name, zone_info.risk)
    else zoneScan p rest

/-- zone_utils.is_person_in_danger_zone: scan DANGER_ZONES in declaration order
for the first zone containing (cx, cy); no match gives (False, "SAFE", 0). -/
def is_person_in_danger_zone (cx cy : ℤ) : Bool × String × ℤ :=
  zoneScan (cx, cy) DANGER_ZONES

/-- Closed axis-aligned rectangle membership, the extensional description of
each configured zone polygon. -/
def inRect (x1 y1 x2 y2 : ℤ) (p : ℤ × ℤ) : Prop :=
  x1 ≤ p.1 ∧ p.1 ≤ x2 ∧ y1 ≤ p.2 ∧ p.2 ≤ y2

instance (x1 y1 x2 y2 : ℤ) (p : ℤ × ℤ) : Decidable (inRect x1 y1 x2 y2 p) := by
  unfold inRect; infer_instance

set_option maxHeartbeats 2000000 in
/-- On the HEAVY_MACHINERY rectangle, the OpenCV point test is nonnegative
exactly on the closed rectangle: boundary points count as inside. -/
theorem ppTest_heavy (x y : ℤ) :
    0 ≤ pointPolygonTest [(300, 200), (900, 200), (900, 600), (300, 600)] (x, y) ↔
      inRect 300 200 900 600 (x, y) := by
  unfold pointPolygonTest inRect
  rw [show ([(300, 200), (900, 200), (900, 600), (300, 600)] : List (ℤ × ℤ)).getLastD (0, 0)
      = ((300 : ℤ), (600 : ℤ)) from rfl]
  simp only [List.foldl]
  norm_num [ppStep]
  all_goals try split_ifs
  all_goals try omega
  all_goals try norm_num [ppStep]
  all_goals try split_ifs
  all_goals try omega
  all_goals try norm_num [ppStep]
  all_goals try split_ifs
  all_goals try omega
  all_goals try norm_num [ppStep]
  all_goals try split_ifs
  all_goals try omega
  all_goals try norm_num [ppStep]
  all_goals omega

set_option maxHeartbeats 2000000 in
/-- On the ELECTRICAL rectangle, the OpenCV point test is nonnegative exactly
on the closed rectangle. -/
theorem ppTest_electrical (x y : ℤ) :
    0 ≤ pointPolygonTest [(500, 150), (700, 150), (700, 400), (500, 400)] (x, y) ↔
      inRect 500 150 700 400 (x, y) := by
  unfold pointPolygonTest inRect
  rw [show ([(500, 150), (700, 150), (700, 400), (500, 400)] : List (ℤ × ℤ)).getLastD (0, 0)
      = ((500 : ℤ), (400 : ℤ)) from rfl]
  simp only [List.foldl]
  norm_num [ppStep]
  all_goals try split_ifs
  all_goals try omega
  all_goals try norm_num [ppStep]
  all_goals try split_ifs
  all_goals try omega
  all_goals try norm_num [ppStep]
  all_goals try split_ifs
  all_goals try omega
  all_goals try norm_num [ppStep]
  all_goals try split_ifs
  all_goals try omega
  all_goals try norm_num [ppStep]
  all_goals omega

set_option maxHeartbeats 2000000 in
/-- On the CHEMICAL rectangle, the OpenCV point test is nonnegative exactly on
the closed rectangle. -/
theorem ppTest_chemical (x y : ℤ) :
    0 ≤ pointPolygonTest [(100, 100), (250, 100), (250, 300), (100, 300)] (x, y) ↔
      inRect 100 100 250 300 (x, y) := by
  unfold pointPolygonTest inRect
  rw [show ([(100, 100), (250, 100), (250, 300), (100, 300)] : List (ℤ × ℤ)).getLastD (0, 0)
      = ((100 : ℤ), (300 : ℤ)) from rfl]
  simp only [List.foldl]
  norm_num [ppStep]
  all_goals try split_ifs
  all_goals try omega
  all_goals try norm_num [ppStep]
  all_goals try split_ifs
  all_goals try omega
  all_goals try norm_num [ppStep]
  all_goals try split_ifs
  all_goals try omega
  all_goals try norm_num [ppStep]
  all_goals try split_ifs
  all_goals try omega
  all_goals try norm_num [ppStep]
  all_goals omega

/-- Python deque(maxlen) append, oldest-first: appending to a full deque drops
the leftmost (oldest) element. Used for every bounded history in
risk_engine.PersonProfile (maxlen=100). -/
def dequeAppend {α : Type} (maxlen : ℕ) (l : List α) (a : α) : List α :=
  if maxlen ≤ l.length then l.tail ++ [a] else l ++ [a]

/-- risk_engine.PersonProfile: per-identity history state. Every deque has
maxlen 100; first_danger_time is the dwell-start timestamp (None when outside
every zone); last_update is the last observation wall-clock time. -/
structure PersonProfile where
  person_id : ℕ
  times : List ℚ
  positions : List (ℤ × ℤ)
  zones : List String
  speeds : List ℚ
  risk_scores : List ℤ
  first_danger_time : Option ℚ
  last_update : ℚ

/-- PersonProfile.__init__: all histories empty, no dwell start, last_update
set to the creation time (the profile store creates profiles lazily). -/
def PersonProfile.init (person_id : ℕ) (now : ℚ) : PersonProfile :=
  { person_id := person_id
    times := []
    positions := []
    zones := []
    speeds := []
    risk_scores := []
    first_danger_time := none
    last_update := now }

/-- Non-time arguments of risk_engine.calculate_risk for a single call. -/
structure RiskInput where
  cx : ℤ
  cy : ℤ
  in_danger_zone : Bool
  zone_name : String
  zone_risk : ℤ
  speed : ℚ
  posture : String
  posture_risk : ℤ

/-- Trend classification of calculate_risk; the Python strings carry a
decorating arrow ("INCREASING", "DECREASING", "STABLE"). -/
inductive Trend
  | increasing
  | decreasing
  | stable
deriving DecidableEq

/-- Status classification of calculate_risk: SAFE, WARNING, CRITICAL. -/
inductive Status
  | safe
  | warning
  | critical
deriving DecidableEq

/-- The risk_info dict returned by calculate_risk: score, ordered mapping of
nonzero factor contributions, trend, status, BGR color, zone label. -/
structure RiskInfo where
  score : ℤ
  factors : List (String × ℤ)
  trend : Trend
  status : Status
  color : ℤ × ℤ × ℤ
  zone : String

/-- FACTOR 1 of calculate_risk: zone risk (0-40), the zone's base risk when in
a danger zone. -/
def factorZone (in_danger_zone : Bool) (zone_risk : ℤ) : ℤ :=
  if in_danger_zone then zone_risk else 0

/-- FACTOR 2 of calculate_risk: time in zone (0-20). When in a zone the dwell
start defaults to now on first entry; 20 points after more than 5 seconds, 15
after 3, 10 after 1. Outside a zone the factor is 0. -/
def factorTime (in_danger_zone : Bool) (first_danger_time : Option ℚ) (now : ℚ) : ℤ :=
  if in_danger_zone then
    let time_in_zone := now - first_danger_time.getD now
    if time_in_zone > 5 then 20
    else if time_in_zone > 3 then 15
    else if time_in_zone > 1 then 10
    else 0
  else 0

/-- FACTOR 3 of calculate_risk: speed (0-20) in pixels/second. -/
def factorSpeed (speed : ℚ) : ℤ :=
  if speed > 200 then 20
  else if speed > 100 then 15
  else if speed > 50 then 10
  else if speed > 20 then 5
  else 0

/-- FACTOR 4 of calculate_risk: posture risk capped at 20. -/
def factorPosture (posture_risk : ℤ) : ℤ :=
  min 20 posture_risk

/-- FACTOR 5 of calculate_risk: proximity (0-10), 10 when in a danger zone and
within 100 px of the left frame edge or right of x=1180. -/
def factorProximity (in_danger_zone : Bool) (cx : ℤ) : ℤ :=
  if in_danger_zone ∧ cx < 100 then 10
  else if in_danger_zone ∧ cx > 1180 then 10
  else 0

/-- FACTOR 6 of calculate_risk: acceleration (0-10). With at least two stored
speeds, the delta is the current speed minus the second-most-recent stored
speed (Python speeds[-2]); 10 points above 50 px/s, 5 above 25. -/
def factorAcceleration (speeds : List ℚ) (speed : ℚ) : ℤ :=
  if 2 ≤ speeds.length then
    let prev_speed := speeds.getD (speeds.length - 2) 0
    let acceleration := speed - prev_speed
    if acceleration > 50 then 10
    else if acceleration > 25 then 5
    else 0
  else 0

/-- risk_engine.calculate_risk: computes the six factors from the current
profile state, appends the new speed (after the acceleration factor), clamps
the total with min 100, appends score/zone/time/position to the histories,
classifies trend from the last 3 stored scores and status from fixed
thresholds, and lists the nonzero factors in evaluation order. All time.time()
reads during the call are the parameter now. Returns the mutated profile and
the risk_info dict. -/
def calculate_risk (now : ℚ) (profile : PersonProfile) (inp : RiskInput) :
    PersonProfile × RiskInfo :=
  let profile := { profile with last_update := now }
  let factor_zone := factorZone inp.in_danger_zone inp.zone_risk
  let fdt : Option ℚ :=
    if inp.in_danger_zone then some (profile.first_danger_time.getD now) else none
  let factor_time := factorTime inp.in_danger_zone profile.first_danger_time now
  let factor_speed := factorSpeed inp.speed
  let factor_posture := factorPosture inp.posture_risk
  let factor_proximity := factorProximity inp.in_danger_zone inp.cx
  let factor_acceleration := factorAcceleration profile.speeds inp.speed
  let speeds := dequeAppend 100 profile.speeds inp.speed
  let total_risk := factor_zone + factor_time + factor_speed + factor_posture +
    factor_proximity + factor_acceleration
  let total_risk := min 100 total_risk
  let risk_scores := dequeAppend 100 profile.risk_scores total_risk
  let zones := dequeAppend 100 profile.zones inp.zone_name
  let times := dequeAppend 100 profile.times now
  let positions := dequeAppend 100 profile.positions (inp.cx, inp.cy)
  let trend :=
    if 3 ≤ risk_scores.length then
      let recent_scores := risk_scores.drop (risk_scores.length - 3)
      if recent_scores.getLastD 0 > recent_scores.headD 0 + 10 then Trend.increasing
      else if recent_scores.getLastD 0 < recent_scores.headD 0 - 10 then Trend.decreasing
      else Trend.stable
    else Trend.stable
  let status_color :=
    if total_risk < 30 then (Status.safe, ((0 : ℤ), (255 : ℤ), (0 : ℤ)))
    else if total_risk < 60 then (Status.warning, ((0 : ℤ), (255 : ℤ), (255 : ℤ)))
    else (Status.critical, ((0 : ℤ), (0 : ℤ), (255 : ℤ)))
  let factors : List (String × ℤ) :=
    (if factor_zone > 0 then [("Zone", factor_zone)] else []) ++
    (if factor_time > 0 then [("Time", factor_time)] else []) ++
    (if factor_speed > 0 then [("Speed", factor_speed)] else []) ++
    (if factor_posture > 0 then [("Posture", factor_posture)] else []) ++
    (if factor_proximity > 0 then [("Proximity", factor_proximity)] else []) ++
    (if factor_acceleration > 0 then [("Accel", factor_acceleration)] else [])
  ({ profile with
      first_danger_time := fdt
      speeds := speeds
      risk_scores := risk_scores
      zones := zones
      times := times
      positions := positions },
   { score := total_risk
     factors := factors
     trend := trend
     status := status_color.1
     color := status_color.2
     zone := inp.zone_name })

/-- The six factors of one calculate_risk call, summed in evaluation order. -/
def totalFactors (now : ℚ) (profile : PersonProfile) (inp : RiskInput) : ℤ :=
  factorZone inp.in_danger_zone inp.zone_risk +
  factorTime inp.in_danger_zone profile.first_danger_time now +
  factorSpeed inp.speed +
  factorPosture inp.posture_risk +
  factorProximity inp.in_danger_zone inp.cx +
  factorAcceleration profile.speeds inp.speed

theorem calc_score (now : ℚ) (p : PersonProfile) (inp : RiskInput) :
    (calculate_risk now p inp).2.score = min 100 (totalFactors now p inp) := rfl

theorem calc_fdt (now : ℚ) (p : PersonProfile) (inp : RiskInput) :
    (calculate_risk now p inp).1.first_danger_time =
      if inp.in_danger_zone then some (p.first_danger_time.getD now) else none := rfl

theorem calc_speeds (now : ℚ) (p : PersonProfile) (inp : RiskInput) :
    (calculate_risk now p inp).1.speeds = dequeAppend 100 p.speeds inp.speed := rfl

theorem calc_risk_scores (now : ℚ) (p : PersonProfile) (inp : RiskInput) :
    (calculate_risk now p inp).1.risk_scores =
      dequeAppend 100 p.risk_scores (min 100 (totalFactors now p inp)) := rfl

theorem calc_zones (now : ℚ) (p : PersonProfile) (inp : RiskInput) :
    (calculate_risk now p inp).1.zones = dequeAppend 100 p.zones inp.zone_name := rfl

theorem calc_times (now : ℚ) (p : PersonProfile) (inp : RiskInput) :
    (calculate_risk now p inp).1.times = dequeAppend 100 p.times now := rfl

theorem calc_positions (now : ℚ) (p : PersonProfile) (inp : RiskInput) :
    (calculate_risk now p inp).1.positions =
      dequeAppend 100 p.positions (inp.cx, inp.cy) := rfl

theorem calc_status (now : ℚ) (p : PersonProfile) (inp : RiskInput) :
    (calculate_risk now p inp).2.status =
      if min 100 (totalFactors now p inp) < 30 then Status.safe
      else if min 100 (totalFactors now p inp) < 60 then Status.warning
      else Status.critical := by
  show (if min 100 (totalFactors now p inp) < 30 then
      (Status.safe, ((0 : ℤ), (255 : ℤ), (0 : ℤ)))
    else if min 100 (totalFactors now p inp) < 60 then
      (Status.warning, ((0 : ℤ), (255 : ℤ), (255 : ℤ)))
    else (Status.critical, ((0 : ℤ), (0 : ℤ), (255 : ℤ)))).1 = _
  split_ifs <;> rfl

theorem calc_trend (now : ℚ) (p : PersonProfile) (inp : RiskInput) :
    (calculate_risk now p inp).2.trend =
      (if 3 ≤ (dequeAppend 100 p.risk_scores (min 100 (totalFactors now p inp))).length then
        if ((dequeAppend 100 p.risk_scores (min 100 (totalFactors now p inp))).drop
              ((dequeAppend 100 p.risk_scores (min 100 (totalFactors now p inp))).length -
                3)).getLastD 0 >
            ((dequeAppend 100 p.risk_scores (min 100 (totalFactors now p inp))).drop
              ((dequeAppend 100 p.risk_scores (min 100 (totalFactors now p inp))).length -
                3)).headD 0 + 10 then Trend.increasing
        else if ((dequeAppend 100 p.risk_scores (min 100 (totalFactors now p inp))).drop
              ((dequeAppend 100 p.risk_scores (min 100 (totalFactors now p inp))).length -
                3)).getLastD 0 <
            ((dequeAppend 100 p.risk_scores (min 100 (totalFactors now p inp))).drop
              ((dequeAppend 100 p.risk_scores (min 100 (totalFactors now p inp))).length -
                3)).headD 0 - 10 then Trend.decreasing
        else Trend.stable
      else Trend.stable) := rfl

theorem calc_factors (now : ℚ) (p : PersonProfile) (inp : RiskInput) :
    (calculate_risk now p inp).2.factors =
      (if factorZone inp.in_danger_zone inp.zone_risk > 0 then
        [("Zone", factorZone inp.in_danger_zone inp.zone_risk)] else []) ++
      (if factorTime inp.in_danger_zone p.first_danger_time now > 0 then
        [("Time", factorTime inp.in_danger_zone p.first_danger_time now)] else []) ++
      (if factorSpeed inp.speed > 0 then [("Speed", factorSpeed inp.speed)] else []) ++
      (if factorPosture inp.posture_risk > 0 then
        [("Posture", factorPosture inp.posture_risk)] else []) ++
      (if factorProximity inp.in_danger_zone inp.cx > 0 then
        [("Proximity", factorProximity inp.in_danger_zone inp.cx)] else []) ++
      (if factorAcceleration p.speeds inp.speed > 0 then
        [("Accel", factorAcceleration p.speeds inp.speed)] else []) := rfl

theorem dequeAppend_length {α : Type} (l : List α) (a : α) (h : l.length ≤ 100) :
    (dequeAppend 100 l a).length = min (l.length + 1) 100 := by
  unfold dequeAppend
  split_ifs with hfull <;> simp [List.length_tail] <;> omega

theorem dequeAppend_getLast {α : Type} (l : List α) (a d : α) :
    (dequeAppend 100 l a).getLastD d = a := by
  unfold dequeAppend
  split_ifs <;> simp [List.getLastD_eq_getLast?, List.getLast?_append]

/-- Folding deque appends over a list keeps the most recent (at most) 100
elements, oldest dropped first. -/
theorem foldl_dequeAppend_drop {α : Type} (xs : List α) (l : List α) (h : l.length ≤ 100) :
    List.foldl (dequeAppend 100) l xs = (l ++ xs).drop (l.length + xs.length - 100) := by
  induction xs generalizing l with
  | nil =>
    simp [Nat.sub_eq_zero_of_le h]
  | cons x xs ih =>
    simp only [List.foldl_cons]
    rcases Nat.lt_or_ge l.length 100 with hlt | hge
    · have hd : dequeAppend 100 l x = l ++ [x] := by
        unfold dequeAppend; rw [if_neg]; omega
      rw [hd, ih (l ++ [x]) (by simp; omega)]
      have hl : l ++ [x] ++ xs = l ++ x :: xs := by simp
      rw [hl]
      congr 1
      simp
      omega
    · have hlen : l.length = 100 := le_antisymm h hge
      have hne : l ≠ [] := by
        intro hl; rw [hl] at hlen; simp at hlen
      have hd : dequeAppend 100 l x = l.tail ++ [x] := by
        unfold dequeAppend; rw [if_pos]; omega
      rw [hd, ih (l.tail ++ [x]) (by simp [List.length_tail]; omega)]
      obtain ⟨b, l2, rfl⟩ : ∃ b l2, l = b :: l2 := by
        cases l with
        | nil => exact absurd rfl hne
        | cons b l2 => exact ⟨b, l2, rfl⟩
      simp only [List.tail_cons]
      have h2 : l2.length = 99 := by simp at hlen; omega
      have hl : l2 ++ [x] ++ xs = l2 ++ x :: xs := by simp
      rw [hl]
      have hidx : (l2 ++ [x]).length + xs.length - 100 = xs.length := by
        simp only [List.length_append, List.length_cons, List.length_nil, h2]
        omega
      have hidx2 : (b :: l2).length + (x :: xs).length - 100 = xs.length + 1 := by
        simp only [List.length_cons, h2]
        omega
      rw [hidx, hidx2, List.cons_append, List.drop_succ_cons]

theorem foldl_dequeAppend_length {α : Type} (xs : List α) (l : List α) (h : l.length ≤ 100) :
    (List.foldl (dequeAppend 100) l xs).length = min (l.length + xs.length) 100 := by
  rw [foldl_dequeAppend_drop xs l h]
  simp
  omega

/-- One observation of an identity: the wall-clock time of the frame and the
arguments main.py passes to calculate_risk. The profile mutation is the first
component of calculate_risk's result. -/
def applyObservation (p : PersonProfile) (obs : ℚ × RiskInput) : PersonProfile :=
  (calculate_risk obs.1 p obs.2).1

/-- A sequence of calculate_risk calls for one identity, applied in order to a
profile (per-identity profiles are independent in the store). -/
def runObservations (p : PersonProfile) (l : List (ℚ × RiskInput)) : PersonProfile :=
  l.foldl applyObservation p

theorem runObservations_speeds (l : List (ℚ × RiskInput)) (p : PersonProfile) :
    (runObservations p l).speeds =
      List.foldl (dequeAppend 100) p.speeds (l.map fun o => o.2.speed) := by
  induction l generalizing p with
  | nil => rfl
  | cons o l ih =>
    simp only [runObservations, List.foldl_cons, List.map_cons]
    rw [show List.foldl applyObservation (applyObservation p o) l =
        runObservations (applyObservation p o) l from rfl]
    rw [ih, applyObservation, calc_speeds]

theorem runObservations_times (l : List (ℚ × RiskInput)) (p : PersonProfile) :
    (runObservations p l).times =
      List.foldl (dequeAppend 100) p.times (l.map fun o => o.1) := by
  induction l generalizing p with
  | nil => rfl
  | cons o l ih =>
    simp only [runObservations, List.foldl_cons, List.map_cons]
    rw [show List.foldl applyObservation (applyObservation p o) l =
        runObservations (applyObservation p o) l from rfl]
    rw [ih, applyObservation, calc_times]

theorem runObservations_zones (l : List (ℚ × RiskInput)) (p : PersonProfile) :
    (runObservations p l).zones =
      List.foldl (dequeAppend 100) p.zones (l.map fun o => o.2.zone_name) := by
  induction l generalizing p with
  | nil => rfl
  | cons o l ih =>
    simp only [runObservations, List.foldl_cons, List.map_cons]
    rw [show List.foldl applyObservation (applyObservation p o) l =
        runObservations (applyObservation p o) l from rfl]
    rw [ih, applyObservation, calc_zones]

theorem runObservations_positions (l : List (ℚ × RiskInput)) (p : PersonProfile) :
    (runObservations p l).positions =
      List.foldl (dequeAppend 100) p.positions (l.map fun o => (o.2.cx, o.2.cy)) := by
  induction l generalizing p with
  | nil => rfl
  | cons o l ih =>
    simp only [runObservations, List.foldl_cons, List.map_cons]
    rw [show List.foldl applyObservation (applyObservation p o) l =
        runObservations (applyObservation p o) l from rfl]
    rw [ih, applyObservation, calc_positions]

theorem runObservations_risk_scores_length (l : List (ℚ × RiskInput)) (p : PersonProfile)
    (h : p.risk_scores.length ≤ 100) :
    (runObservations p l).risk_scores.length = min (p.risk_scores.length + l.length) 100 := by
  induction l generalizing p with
  | nil => simp [runObservations]; omega
  | cons o l ih =>
    simp only [runObservations, List.foldl_cons, List.length_cons]
    rw [show List.foldl applyObservation (applyObservation p o) l =
        runObservations (applyObservation p o) l from rfl]
    have hstep : (applyObservation p o).risk_scores.length =
        min (p.risk_scores.length + 1) 100 := by
      rw [applyObservation, calc_risk_scores, dequeAppend_length _ _ h]
    rw [ih (applyObservation p o) (by omega), hstep]
    omega

/-- Per-identity position history of tracker_utils: last (at most) 10
(position, time) observations plus the last computed speed. -/
structure TrackHistory where
  positions : List (ℤ × ℤ)
  times : List ℚ
  speed : ℝ

/-- tracker_utils.calculate_speed: append the observation to the identity's
history, keep only the last 10 entries, then divide the Euclidean distance
between the two most recent positions by the elapsed time between their
timestamps; the speed stays 0 with fewer than two observations or when the
elapsed time is not positive. Returns the updated history and the speed. -/
noncomputable def calculate_speed (hist : TrackHistory) (cx cy : ℤ) (current_time : ℚ) :
    TrackHistory × ℝ :=
  let positions := hist.positions ++ [(cx, cy)]
  let times := hist.times ++ [current_time]
  let positions2 := if 10 < positions.length then positions.tail else positions
  let times2 := if 10 < positions.length then times.tail else times
  let speed : ℝ :=
    if 2 ≤ positions2.length then
      let prev := positions2.getD (positions2.length - 2) (0, 0)
      let curr := positions2.getD (positions2.length - 1) (0, 0)
      let distance := Real.sqrt ((((curr.1 - prev.1 : ℤ) : ℝ)) ^ 2 + (((curr.2 - prev.2 : ℤ) : ℝ)) ^ 2)
      let time_diff := times2.getD (times2.length - 1) 0 - times2.getD (times2.length - 2) 0
      if 0 < time_diff then distance / (time_diff : ℝ) else 0
    else 0
  ({ positions := positions2, times := times2, speed := speed }, speed)

/-- Process-wide alert statistics of main.py: total_alerts counter and
last_alert_time timestamp (initially 0). -/
structure AlertState where
  total_alerts : ℕ
  last_alert_time : ℚ

/-- Per-person critical collection of main.py STEP 8: a person joins
critical_people exactly when their risk score is above 70. -/
def collect_critical (people : List (ℕ × ℤ)) : List (ℕ × ℤ) :=
  people.filter fun pr => pr.2 > 70

/-- main.py HANDLE CRITICAL ALERTS: when this frame's critical_people list is
non-empty and more than 1 second has passed since the last alert, emit one
alert: increment total_alerts and record current_time; otherwise leave the
state unchanged (the on-screen overlay is drawn regardless). -/
def handle_critical_alerts (st : AlertState) (critical_people : List (ℕ × ℤ))
    (current_time : ℚ) : AlertState :=
  if critical_people = [] then st
  else if 1 < current_time - st.last_alert_time then
    { total_alerts := st.total_alerts + 1, last_alert_time := current_time }
  else st

/-- C2: zone classification tests the configured zones in declaration order
(HEAVY_MACHINERY, then ELECTRICAL, then CHEMICAL), counts boundary points as
inside, and returns (True, name, baseRisk) for the first zone containing the
point — overlap is resolved first-match by configuration order, not by maximum
risk; if no zone contains the point it returns (False, "SAFE", 0). -/
theorem zone_classification_first_match (cx cy : ℤ) :
    is_person_in_danger_zone cx cy =
      if inRect 300 200 900 600 (cx, cy) then (true, "HEAVY_MACHINERY", 40)
      else if inRect 500 150 700 400 (cx, cy) then (true, "ELECTRICAL", 35)
      else if inRect 100 100 250 300 (cx, cy) then (true, "CHEMICAL", 30)
      else (false, "SAFE", 0) := by
  have h1 := ppTest_heavy cx cy
  have h2 := ppTest_electrical cx cy
  have h3 := ppTest_chemical cx cy
  simp only [is_person_in_danger_zone, DANGER_ZONES, zoneScan, ge_iff_le]
  split_ifs <;> simp_all

theorem factorTime_mem (z : Bool) (fdt : Option ℚ) (now : ℚ) :
    factorTime z fdt now = 0 ∨ factorTime z fdt now = 10 ∨
      factorTime z fdt now = 15 ∨ factorTime z fdt now = 20 := by
  unfold factorTime
  split_ifs <;> simp <;> split_ifs <;> simp
  all_goals linarith

theorem factorSpeed_mem (speed : ℚ) :
    factorSpeed speed = 0 ∨ factorSpeed speed = 5 ∨ factorSpeed speed = 10 ∨
      factorSpeed speed = 15 ∨ factorSpeed speed = 20 := by
  unfold factorSpeed
  split_ifs <;> simp

theorem factorProximity_mem (z : Bool) (cx : ℤ) :
    factorProximity z cx = 0 ∨ factorProximity z cx = 10 := by
  unfold factorProximity
  split_ifs <;> simp

theorem factorAcceleration_mem (speeds : List ℚ) (speed : ℚ) :
    factorAcceleration speeds speed = 0 ∨ factorAcceleration speeds speed = 5 ∨
      factorAcceleration speeds speed = 10 := by
  unfold factorAcceleration
  split_ifs <;> simp <;> split_ifs <;> simp
  all_goals linarith

/-- The sum of the factor contributions listed in the factors mapping (the
nonzero ones) equals the plain sum of the six factors, provided every factor is
nonnegative. -/
theorem factors_listed_sum (a b c d e f : ℤ) (ha : 0 ≤ a) (hb : 0 ≤ b) (hc : 0 ≤ c)
    (hd : 0 ≤ d) (he : 0 ≤ e) (hf : 0 ≤ f) :
    ((((if a > 0 then [("Zone", a)] else []) ++
       (if b > 0 then [("Time", b)] else []) ++
       (if c > 0 then [("Speed", c)] else []) ++
       (if d > 0 then [("Posture", d)] else []) ++
       (if e > 0 then [("Proximity", e)] else []) ++
       (if f > 0 then [("Accel", f)] else [])).map Prod.snd).sum : ℤ) =
      a + b + c + d + e + f := by
  split_ifs <;> simp <;> omega

/-- RiskInput of a stationary standing person at (400, 300), inside the
HEAVY_MACHINERY zone exactly as classified by is_person_in_danger_zone. -/
def standingInZone : RiskInput :=
  { cx := 400
    cy := 300
    in_danger_zone := true
    zone_name := "HEAVY_MACHINERY"
    zone_risk := 40
    speed := 0
    posture := "STANDING"
    posture_risk := 0 }

/-- RiskInput of a person rushing at 250 px/s through (400, 300) inside
HEAVY_MACHINERY while bending (pose risk 25). -/
def bendingRusher : RiskInput :=
  { cx := 400
    cy := 300
    in_danger_zone := true
    zone_name := "HEAVY_MACHINERY"
    zone_risk := 40
    speed := 250
    posture := "BENDING"
    posture_risk := 25 }

/-- C1 fails as stated: after two quiet calls inside HEAVY_MACHINERY at times
0 and 1, a third call at time 6 with speed 250 and posture risk 25 collects
factors Zone 40 + Time 20 + Speed 20 + Posture 20 + Accel 10 = 110, but the
returned score is the clamped 100, so the score does not equal the sum of the
factor contributions listed in the factors mapping. -/
theorem score_neq_factor_sum_at_110 :
    (calculate_risk 6
        ((calculate_risk 1 ((calculate_risk 0 (PersonProfile.init 1 0) standingInZone).1)
          standingInZone).1)
        bendingRusher).2.score = 100 ∧
    (((calculate_risk 6
        ((calculate_risk 1 ((calculate_risk 0 (PersonProfile.init 1 0) standingInZone).1)
          standingInZone).1)
        bendingRusher).2.factors.map Prod.snd).sum : ℤ) = 110 := by
  norm_num [calculate_risk, PersonProfile.init, standingInZone, bendingRusher, factorZone,
    factorTime, factorSpeed, factorPosture, factorProximity, factorAcceleration, dequeAppend,
    List.getD]

/-- C1 (amended): for every call to calculate_risk with posture_risk in [0,50]
and a nonnegative zone_risk (every zone base risk the classifier can supply is
nonnegative), the returned score is an integer in [0,100] equal to the sum of
the six factor values clamped to [0,100]; it equals the sum of the nonzero
factor contributions listed in the returned factors mapping whenever that sum
is at most 100, while a larger sum is clamped to a score of 100. -/
theorem score_clamped_factor_sum (now : ℚ) (p : PersonProfile) (inp : RiskInput)
    (hz : 0 ≤ inp.zone_risk) (hp0 : 0 ≤ inp.posture_risk) (hp50 : inp.posture_risk ≤ 50) :
    0 ≤ (calculate_risk now p inp).2.score ∧
    (calculate_risk now p inp).2.score ≤ 100 ∧
    (calculate_risk now p inp).2.score =
      min 100 (((calculate_risk now p inp).2.factors.map Prod.snd).sum) ∧
    (((calculate_risk now p inp).2.factors.map Prod.snd).sum ≤ 100 →
      (calculate_risk now p inp).2.score =
        ((calculate_risk now p inp).2.factors.map Prod.snd).sum) := by
  have hza : 0 ≤ factorZone inp.in_danger_zone inp.zone_risk := by
    unfold factorZone; split_ifs <;> omega
  have hb := factorTime_mem inp.in_danger_zone p.first_danger_time now
  have hc := factorSpeed_mem inp.speed
  have hd : 0 ≤ factorPosture inp.posture_risk ∧ factorPosture inp.posture_risk ≤ 20 := by
    unfold factorPosture; omega
  have he := factorProximity_mem inp.in_danger_zone inp.cx
  have hf := factorAcceleration_mem p.speeds inp.speed
  have hsum : (((calculate_risk now p inp).2.factors.map Prod.snd).sum : ℤ) =
      totalFactors now p inp := by
    rw [calc_factors, totalFactors]
    exact factors_listed_sum _ _ _ _ _ _ hza (by omega) (by omega) hd.1 (by omega) (by omega)
  rw [calc_score, hsum]
  have htot : 0 ≤ totalFactors now p inp := by
    unfold totalFactors; omega
  refine ⟨by omega, by omega, rfl, fun hle => by omega⟩

/-- C1 witness: the amended statement evaluated at time 0 on a fresh profile
for the stationary standing person. -/
theorem score_clamped_factor_sum_witness :
    0 ≤ (calculate_risk 0 (PersonProfile.init 1 0) standingInZone).2.score ∧
    (calculate_risk 0 (PersonProfile.init 1 0) standingInZone).2.score ≤ 100 ∧
    (calculate_risk 0 (PersonProfile.init 1 0) standingInZone).2.score =
      min 100 (((calculate_risk 0 (PersonProfile.init 1 0) standingInZone).2.factors.map
        Prod.snd).sum) ∧
    (((calculate_risk 0 (PersonProfile.init 1 0) standingInZone).2.factors.map
        Prod.snd).sum ≤ 100 →
      (calculate_risk 0 (PersonProfile.init 1 0) standingInZone).2.score =
        ((calculate_risk 0 (PersonProfile.init 1 0) standingInZone).2.factors.map
          Prod.snd).sum) :=
  score_clamped_factor_sum 0 (PersonProfile.init 1 0) standingInZone
    (by norm_num [standingInZone]) (by norm_num [standingInZone])
    (by norm_num [standingInZone])

/-- Looking up the Accel entry in the ordered factors mapping: present with the
acceleration factor's value exactly when that factor is nonzero (the other
entries carry different keys). -/
theorem lookup_accel (a b c d e f : ℤ) :
    (((if a > 0 then [("Zone", a)] else []) ++
      (if b > 0 then [("Time", b)] else []) ++
      (if c > 0 then [("Speed", c)] else []) ++
      (if d > 0 then [("Posture", d)] else []) ++
      (if e > 0 then [("Proximity", e)] else []) ++
      (if f > 0 then [("Accel", f)] else [])).lookup "Accel") =
      if f > 0 then some f else none := by
  split_ifs <;> simp [List.lookup]

theorem factorAcceleration_of_len (speeds : List ℚ) (speed : ℚ) (h : 2 ≤ speeds.length) :
    factorAcceleration speeds speed =
      (if 50 < speed - speeds.getD (speeds.length - 2) 0 then 10
       else if 25 < speed - speeds.getD (speeds.length - 2) 0 then 5 else 0) := by
  unfold factorAcceleration
  rw [if_pos h]

/-- C3: the acceleration delta compares the current speed with the
second-most-recent stored speed (speeds[-2]) of the profile as it was BEFORE
the call appends the new speed (strict one-step lookback; the append is
visible in the returned profile), contributing 10 above 50, 5 above 25, and
nothing otherwise; with fewer than two stored speeds the factor is absent. -/
theorem acceleration_one_step_lookback (now : ℚ) (p : PersonProfile) (inp : RiskInput) :
    ((calculate_risk now p inp).1.speeds = dequeAppend 100 p.speeds inp.speed) ∧
    (2 ≤ p.speeds.length →
      (calculate_risk now p inp).2.factors.lookup "Accel" =
        (if 50 < inp.speed - p.speeds.getD (p.speeds.length - 2) 0 then some 10
         else if 25 < inp.speed - p.speeds.getD (p.speeds.length - 2) 0 then some 5
         else none)) ∧
    (p.speeds.length < 2 → (calculate_risk now p inp).2.factors.lookup "Accel" = none) := by
  refine ⟨calc_speeds now p inp, fun h2 => ?_, fun hlt => ?_⟩
  · rw [calc_factors, lookup_accel, factorAcceleration_of_len _ _ h2]
    split_ifs <;> norm_num <;> linarith
  · rw [calc_factors, lookup_accel]
    have h0 : factorAcceleration p.speeds inp.speed = 0 := by
      unfold factorAcceleration
      rw [if_neg (by omega)]
    rw [h0]
    norm_num

/-- C3 witness: with stored speeds [0, 0], a call at speed 250 sees delta 250
against speeds[-2] = 0 and lists Accel = 10. -/
theorem acceleration_one_step_lookback_witness :
    2 ≤ ([(0 : ℚ), 0]).length ∧
    (calculate_risk 0 { PersonProfile.init 3 0 with speeds := [0, 0] }
      bendingRusher).2.factors.lookup "Accel" = some 10 := by
  constructor
  · norm_num
  · rw [(acceleration_one_step_lookback 0
      { PersonProfile.init 3 0 with speeds := [0, 0] } bendingRusher).2.1
      (by norm_num [PersonProfile.init])]
    norm_num [bendingRusher, PersonProfile.init, List.getD]

/-- C4: status is SAFE below 30, WARNING from 30 up to but excluding 60, and
CRITICAL from 60 (a score of exactly 60 is CRITICAL); and an entity that has
dwelt more than 5 seconds in a risk-40 zone with posture risk 0 and no speed,
proximity or acceleration contribution scores exactly 60, hence CRITICAL. -/
theorem status_thresholds (now t : ℚ) (p : PersonProfile) (inp : RiskInput) :
    (((calculate_risk now p inp).2.status = Status.safe ↔
        (calculate_risk now p inp).2.score < 30) ∧
     ((calculate_risk now p inp).2.status = Status.warning ↔
        30 ≤ (calculate_risk now p inp).2.score ∧ (calculate_risk now p inp).2.score < 60) ∧
     ((calculate_risk now p inp).2.status = Status.critical ↔
        60 ≤ (calculate_risk now p inp).2.score)) ∧
    (p.first_danger_time = some t → 5 < now - t → inp.in_danger_zone = true →
      inp.zone_risk = 40 → inp.posture_risk = 0 → inp.speed ≤ 20 →
      ¬inp.cx < 100 → ¬1180 < inp.cx →
      (p.speeds.length < 2 ∨ inp.speed - p.speeds.getD (p.speeds.length - 2) 0 ≤ 25) →
      (calculate_risk now p inp).2.score = 60 ∧
      (calculate_risk now p inp).2.status = Status.critical) := by
  constructor
  · rw [calc_status, calc_score]
    split_ifs <;> refine ⟨?_, ?_, ?_⟩ <;> simp <;> omega
  · intro hfdt hdwell hz hzr hpr hsp hcx1 hcx2 hacc
    have h1 : factorZone inp.in_danger_zone inp.zone_risk = 40 := by
      unfold factorZone
      rw [hz, hzr]
      simp
    have h2 : factorTime inp.in_danger_zone p.first_danger_time now = 20 := by
      unfold factorTime
      rw [hz, hfdt]
      simp only [Option.getD_some, eq_self_iff_true, if_true]
      rw [if_pos hdwell]
    have h3 : factorSpeed inp.speed = 0 := by
      unfold factorSpeed
      split_ifs <;> first | rfl | (exfalso; linarith)
    have h4 : factorPosture inp.posture_risk = 0 := by
      unfold factorPosture
      rw [hpr]
      rfl
    have h5 : factorProximity inp.in_danger_zone inp.cx = 0 := by
      unfold factorProximity
      split_ifs with ha hb
      · exact absurd ha.2 hcx1
      · exact absurd hb.2 hcx2
      · rfl
    have h6 : factorAcceleration p.speeds inp.speed = 0 := by
      rcases Nat.lt_or_ge p.speeds.length 2 with hl | hl
      · unfold factorAcceleration
        rw [if_neg (by omega)]
      · rw [factorAcceleration_of_len _ _ hl]
        rcases hacc with h | h
        · exact absurd h (by omega)
        · split_ifs <;> first | rfl | (exfalso; linarith)
    have hts : totalFactors now p inp = 60 := by
      rw [totalFactors, h1, h2, h3, h4, h5, h6]
      norm_num
    rw [calc_score, calc_status, hts]
    norm_num

/-- C4 witness: a profile that entered HEAVY_MACHINERY at time 0, evaluated at
time 6 while standing still, scores exactly 60 and is CRITICAL. -/
theorem status_thresholds_witness :
    (calculate_risk 6 { PersonProfile.init 4 0 with first_danger_time := some 0 }
      standingInZone).2.score = 60 ∧
    (calculate_risk 6 { PersonProfile.init 4 0 with first_danger_time := some 0 }
      standingInZone).2.status = Status.critical :=
  (status_thresholds 6 0 { PersonProfile.init 4 0 with first_danger_time := some 0 }
      standingInZone).2
    (by rfl) (by norm_num) (by rfl) (by rfl) (by rfl)
    (by norm_num [standingInZone]) (by norm_num [standingInZone])
    (by norm_num [standingInZone]) (Or.inl (by norm_num [PersonProfile.init]))

/-- RiskInput of a stationary standing person at (50, 50), outside every
configured zone exactly as classified by is_person_in_danger_zone. -/
def standingOutside : RiskInput :=
  { cx := 50
    cy := 50
    in_danger_zone := false
    zone_name := "SAFE"
    zone_risk := 0
    speed := 0
    posture := "STANDING"
    posture_risk := 0 }

/-- C7: after a call, the dwell-start timestamp is non-null exactly when the
call classified the identity as inside a zone; entering from a cleared state
stamps the entry time, and after exit followed by re-entry the dwell start is
the re-entry time (elapsed dwell restarts at 0), not the first entry. -/
theorem dwell_start_iff_in_zone (t1 t2 t3 : ℚ) (p : PersonProfile) (i1 i2 i3 : RiskInput) :
    ((calculate_risk t1 p i1).1.first_danger_time ≠ none ↔ i1.in_danger_zone = true) ∧
    (i1.in_danger_zone = true → p.first_danger_time = none →
      (calculate_risk t1 p i1).1.first_danger_time = some t1) ∧
    (i2.in_danger_zone = false → i3.in_danger_zone = true →
      (calculate_risk t3
        ((calculate_risk t2 ((calculate_risk t1 p i1).1) i2).1) i3).1.first_danger_time =
        some t3) := by
  refine ⟨?_, fun h1 h2 => ?_, fun h2 h3 => ?_⟩
  · rw [calc_fdt]
    cases hb : i1.in_danger_zone <;> simp [hb]
  · rw [calc_fdt, h2]
    simp [h1]
  · simp only [calc_fdt, h2, h3]
    simp

/-- C7 witness: enter HEAVY_MACHINERY at time 0, step outside at time 1,
re-enter at time 2 — the dwell start is the re-entry time 2. -/
theorem dwell_start_iff_in_zone_witness :
    (calculate_risk 2
      ((calculate_risk 1 ((calculate_risk 0 (PersonProfile.init 7 0) standingInZone).1)
        standingOutside).1) standingInZone).1.first_danger_time = some 2 :=
  (dwell_start_iff_in_zone 0 1 2 (PersonProfile.init 7 0) standingInZone standingOutside
    standingInZone).2.2 (by rfl) (by rfl)

/-- C8: a frame emits a new alert (counter increment, timestamp recorded)
exactly when the set of identities scoring above 70 is non-empty and more than
the 1-second cooldown has passed since the last alert — at most one increment
per frame however many identities qualify, and never two increments within one
cooldown window; two critical frames 0.3s apart give one increment and a third
critical frame 1.2s after the first alert gives a second. -/
theorem alert_throttle (st : AlertState) (people : List (ℕ × ℤ)) (t t2 : ℚ)
    (c1 c2 c3 : List (ℕ × ℤ)) :
    (collect_critical people = [] ↔ ∀ pr ∈ people, ¬70 < pr.2) ∧
    ((handle_critical_alerts st (collect_critical people) t).total_alerts =
      st.total_alerts +
        (if collect_critical people ≠ [] ∧ 1 < t - st.last_alert_time then 1 else 0)) ∧
    (collect_critical people ≠ [] → 1 < t - st.last_alert_time →
      handle_critical_alerts st (collect_critical people) t =
        { total_alerts := st.total_alerts + 1, last_alert_time := t }) ∧
    (t2 - t ≤ 1 →
      (handle_critical_alerts { total_alerts := st.total_alerts + 1, last_alert_time := t }
        c2 t2).total_alerts = st.total_alerts + 1) ∧
    (c1 ≠ [] → c2 ≠ [] → c3 ≠ [] → 1 < t - st.last_alert_time →
      (handle_critical_alerts st c1 t).total_alerts = st.total_alerts + 1 ∧
      (handle_critical_alerts (handle_critical_alerts st c1 t) c2 (t + 3/10)).total_alerts =
        st.total_alerts + 1 ∧
      (handle_critical_alerts
        (handle_critical_alerts (handle_critical_alerts st c1 t) c2 (t + 3/10)) c3
        (t + 12/10)).total_alerts = st.total_alerts + 2) := by
  refine ⟨?_, ?_, fun h1 h2 => ?_, fun hle => ?_, fun h1 h2 h3 h4 => ?_⟩
  · simp [collect_critical, List.filter_eq_nil_iff]
  · unfold handle_critical_alerts
    split_ifs <;> simp_all
  · unfold handle_critical_alerts
    rw [if_neg h1, if_pos h2]
  · unfold handle_critical_alerts
    split_ifs <;> first | rfl | (exfalso; simp_all; linarith)
  · have e1 : handle_critical_alerts st c1 t =
        { total_alerts := st.total_alerts + 1, last_alert_time := t } := by
      unfold handle_critical_alerts
      rw [if_neg h1, if_pos h4]
    have e2 : handle_critical_alerts
        ({ total_alerts := st.total_alerts + 1, last_alert_time := t } : AlertState)
        c2 (t + 3/10) =
        { total_alerts := st.total_alerts + 1, last_alert_time := t } := by
      unfold handle_critical_alerts
      rw [if_neg h2, if_neg (by intro hc; simp at hc; linarith)]
    have e3 : handle_critical_alerts
        ({ total_alerts := st.total_alerts + 1, last_alert_time := t } : AlertState)
        c3 (t + 12/10) =
        { total_alerts := st.total_alerts + 2, last_alert_time := t + 12/10 } := by
      unfold handle_critical_alerts
      rw [if_neg h3, if_pos (by simp; linarith)]
    rw [e1, e2, e3]
    exact ⟨rfl, rfl, rfl⟩

/-- C8 witness: starting from counter 0 and last alert at 0, critical frames
at times 2, 2.3 and 3.2 produce counters 1, 1, 2. -/
theorem alert_throttle_witness :
    (handle_critical_alerts ⟨0, 0⟩ [(1, 80)] 2).total_alerts = 1 ∧
    (handle_critical_alerts (handle_critical_alerts ⟨0, 0⟩ [(1, 80)] 2) [(1, 80)]
      (2 + 3/10)).total_alerts = 1 ∧
    (handle_critical_alerts
      (handle_critical_alerts (handle_critical_alerts ⟨0, 0⟩ [(1, 80)] 2) [(1, 80)]
        (2 + 3/10)) [(1, 80)] (2 + 12/10)).total_alerts = 2 := by
  simpa using (alert_throttle ⟨0, 0⟩ [(1, 80)] 2 0 [(1, 80)] [(1, 80)] [(1, 80)]).2.2.2.2
    (by simp) (by simp) (by simp) (by norm_num)

theorem headD_drop {α : Type} (l : List α) (n : ℕ) (d : α) :
    (l.drop n).headD d = l.getD n d := by
  rw [List.headD_eq_head?, List.head?_drop, List.getD_eq_getElem?_getD]

theorem getLastD_drop {α : Type} (l : List α) (n : ℕ) (d : α) (h : n < l.length) :
    (l.drop n).getLastD d = l.getLastD d := by
  rw [List.getLastD_eq_getLast?, List.getLastD_eq_getLast?]
  have hne : l.drop n ≠ [] := by
    intro hnil
    have := congrArg List.length hnil
    simp at this
    omega
  obtain ⟨x, hx⟩ : ∃ x, (l.drop n).getLast? = some x := by
    cases hl : (l.drop n).getLast? with
    | none => exact absurd (List.getLast?_eq_none_iff.mp hl) hne
    | some x => exact ⟨x, rfl⟩
  conv_rhs => rw [← List.take_append_drop n l]
  rw [List.getLast?_append, hx]
  rfl

theorem getD_last {α : Type} (l : List α) (d : α) (h : l ≠ []) :
    l.getD (l.length - 1) d = l.getLastD d := by
  rw [List.getLastD_eq_getLast?, List.getLast?_eq_getElem?, List.getD_eq_getElem?_getD]

theorem dequeAppend_ne_nil {α : Type} (l : List α) (a : α) : dequeAppend 100 l a ≠ [] := by
  unfold dequeAppend
  split_ifs <;> simp

/-- C9: the trend is computed from the 3 most recent stored scores including
the newly appended one (which is the returned score): INCREASING when the
newest exceeds the oldest of the three by more than 10, DECREASING when it is
below it by more than 10, otherwise STABLE; with fewer than 3 stored scores
the trend is STABLE; and the trend is always one of the three values. -/
theorem trend_from_last_three (now : ℚ) (p : PersonProfile) (inp : RiskInput) :
    ((calculate_risk now p inp).2.trend = Trend.increasing ∨
     (calculate_risk now p inp).2.trend = Trend.decreasing ∨
     (calculate_risk now p inp).2.trend = Trend.stable) ∧
    ((calculate_risk now p inp).1.risk_scores.getD
        ((calculate_risk now p inp).1.risk_scores.length - 1) 0 =
      (calculate_risk now p inp).2.score) ∧
    ((calculate_risk now p inp).1.risk_scores.length < 3 →
      (calculate_risk now p inp).2.trend = Trend.stable) ∧
    (3 ≤ (calculate_risk now p inp).1.risk_scores.length →
      (calculate_risk now p inp).2.trend =
        (if (calculate_risk now p inp).2.score >
            (calculate_risk now p inp).1.risk_scores.getD
              ((calculate_risk now p inp).1.risk_scores.length - 3) 0 + 10 then
          Trend.increasing
        else if (calculate_risk now p inp).2.score <
            (calculate_risk now p inp).1.risk_scores.getD
              ((calculate_risk now p inp).1.risk_scores.length - 3) 0 - 10 then
          Trend.decreasing
        else Trend.stable)) := by
  have hs : (calculate_risk now p inp).1.risk_scores =
      dequeAppend 100 p.risk_scores (min 100 (totalFactors now p inp)) :=
    calc_risk_scores now p inp
  have hne : (calculate_risk now p inp).1.risk_scores ≠ [] := by
    rw [hs]; exact dequeAppend_ne_nil _ _
  have hlast : (calculate_risk now p inp).1.risk_scores.getLastD 0 =
      min 100 (totalFactors now p inp) := by
    rw [hs]; exact dequeAppend_getLast _ _ _
  have hnew : (calculate_risk now p inp).1.risk_scores.getD
      ((calculate_risk now p inp).1.risk_scores.length - 1) 0 =
      (calculate_risk now p inp).2.score := by
    rw [getD_last _ _ hne, hlast, calc_score]
  refine ⟨?_, hnew, fun hlt => ?_, fun hge => ?_⟩
  · rw [calc_trend, ← hs]
    split_ifs <;> simp
  · rw [calc_trend, ← hs, if_neg (by omega)]
  · rw [calc_trend, ← hs, if_pos hge]
    have hdroplast : (((calculate_risk now p inp).1.risk_scores.drop
        ((calculate_risk now p inp).1.risk_scores.length - 3)).getLastD 0) =
        (calculate_risk now p inp).2.score := by
      rw [getLastD_drop _ _ _ (by omega), ← getD_last _ _ hne, hnew]
    rw [hdroplast, headD_drop]

/-- C9 witness: stored scores [20, 25] followed by a call scoring 40 give
three stored scores and the trend INCREASING (40 > 20 + 10). -/
theorem trend_from_last_three_witness :
    3 ≤ (calculate_risk 0 { PersonProfile.init 9 0 with risk_scores := [20, 25] }
      standingInZone).1.risk_scores.length ∧
    (calculate_risk 0 { PersonProfile.init 9 0 with risk_scores := [20, 25] }
      standingInZone).2.trend = Trend.increasing := by
  have hlen : 3 ≤ (calculate_risk 0 { PersonProfile.init 9 0 with risk_scores := [20, 25] }
      standingInZone).1.risk_scores.length := by
    rw [calc_risk_scores]
    norm_num [dequeAppend, PersonProfile.init]
  refine ⟨hlen, ?_⟩
  rw [(trend_from_last_three 0 { PersonProfile.init 9 0 with risk_scores := [20, 25] }
    standingInZone).2.2.2 hlen]
  rw [calc_score, calc_risk_scores]
  norm_num [totalFactors, factorZone, factorTime, factorSpeed, factorPosture, factorProximity,
    factorAcceleration, standingInZone, PersonProfile.init, dequeAppend, List.getD]

theorem getD_concat_last {α : Type} (l : List α) (a d : α) :
    (l ++ [a]).getD ((l ++ [a]).length - 1) d = a := by
  have h : (l ++ [a]).length - 1 = l.length := by simp
  rw [h, List.getD_eq_getElem?_getD, List.getElem?_concat_length]
  rfl

theorem calc_speed_positions (hist : TrackHistory) (cx cy : ℤ) (t : ℚ) :
    (calculate_speed hist cx cy t).1.positions =
      if 10 < (hist.positions ++ [(cx, cy)]).length then (hist.positions ++ [(cx, cy)]).tail
      else hist.positions ++ [(cx, cy)] := rfl

theorem calc_speed_times (hist : TrackHistory) (cx cy : ℤ) (t : ℚ) :
    (calculate_speed hist cx cy t).1.times =
      if 10 < (hist.positions ++ [(cx, cy)]).length then (hist.times ++ [t]).tail
      else hist.times ++ [t] := rfl

theorem calc_speed_value (hist : TrackHistory) (cx cy : ℤ) (t : ℚ) :
    (calculate_speed hist cx cy t).2 =
      (if 2 ≤ (calculate_speed hist cx cy t).1.positions.length then
        (if 0 < (calculate_speed hist cx cy t).1.times.getD
              ((calculate_speed hist cx cy t).1.times.length - 1) 0 -
            (calculate_speed hist cx cy t).1.times.getD
              ((calculate_speed hist cx cy t).1.times.length - 2) 0 then
          Real.sqrt
            (((((calculate_speed hist cx cy t).1.positions.getD
                  ((calculate_speed hist cx cy t).1.positions.length - 1) (0, 0)).1 -
                ((calculate_speed hist cx cy t).1.positions.getD
                  ((calculate_speed hist cx cy t).1.positions.length - 2) (0, 0)).1 : ℤ) :
                ℝ) ^ 2 +
              ((((calculate_speed hist cx cy t).1.positions.getD
                  ((calculate_speed hist cx cy t).1.positions.length - 1) (0, 0)).2 -
                ((calculate_speed hist cx cy t).1.positions.getD
                  ((calculate_speed hist cx cy t).1.positions.length - 2) (0, 0)).2 : ℤ) :
                ℝ) ^ 2) /
            (((calculate_speed hist cx cy t).1.times.getD
                ((calculate_speed hist cx cy t).1.times.length - 1) 0 -
              (calculate_speed hist cx cy t).1.times.getD
                ((calculate_speed hist cx cy t).1.times.length - 2) 0 : ℚ) : ℝ)
        else 0)
      else 0) := rfl

theorem calc_speed_positions_last (hist : TrackHistory) (cx cy : ℤ) (t : ℚ) :
    (calculate_speed hist cx cy t).1.positions.getD
      ((calculate_speed hist cx cy t).1.positions.length - 1) (0, 0) = (cx, cy) := by
  rw [calc_speed_positions]
  split_ifs with hpop
  · have hne : hist.positions ≠ [] := by
      intro h0
      rw [h0] at hpop
      simp at hpop
    rw [List.tail_append_of_ne_nil hne]
    exact getD_concat_last _ _ _
  · exact getD_concat_last _ _ _

/-- C5: for every identity, the speed computation appends the new
(position, timestamp) observation to the identity's history (most recent
last), and returns the Euclidean distance between the two most recent stored
positions divided by the elapsed time between their two most recent
timestamps; with fewer than two stored observations, or elapsed time ≤ 0, it
returns 0, so the division only happens under a positive divisor. -/
theorem speed_guarded (hist : TrackHistory) (cx cy : ℤ) (t : ℚ)
    (hlen : hist.positions.length = hist.times.length) :
    ((calculate_speed hist cx cy t).1.positions.getLast? = some (cx, cy) ∧
     (calculate_speed hist cx cy t).1.times.getLast? = some t) ∧
    ((calculate_speed hist cx cy t).1.positions.length < 2 →
      (calculate_speed hist cx cy t).2 = 0) ∧
    (2 ≤ (calculate_speed hist cx cy t).1.positions.length →
      ((calculate_speed hist cx cy t).1.times.getD
          ((calculate_speed hist cx cy t).1.times.length - 1) 0 -
        (calculate_speed hist cx cy t).1.times.getD
          ((calculate_speed hist cx cy t).1.times.length - 2) 0 ≤ 0 →
        (calculate_speed hist cx cy t).2 = 0) ∧
      (0 < (calculate_speed hist cx cy t).1.times.getD
          ((calculate_speed hist cx cy t).1.times.length - 1) 0 -
        (calculate_speed hist cx cy t).1.times.getD
          ((calculate_speed hist cx cy t).1.times.length - 2) 0 →
        (calculate_speed hist cx cy t).2 =
          Real.sqrt
            (((cx - ((calculate_speed hist cx cy t).1.positions.getD
                ((calculate_speed hist cx cy t).1.positions.length - 2) (0, 0)).1 : ℤ) :
                ℝ) ^ 2 +
              ((cy - ((calculate_speed hist cx cy t).1.positions.getD
                ((calculate_speed hist cx cy t).1.positions.length - 2) (0, 0)).2 : ℤ) :
                ℝ) ^ 2) /
          (((calculate_speed hist cx cy t).1.times.getD
              ((calculate_speed hist cx cy t).1.times.length - 1) 0 -
            (calculate_speed hist cx cy t).1.times.getD
              ((calculate_speed hist cx cy t).1.times.length - 2) 0 : ℚ) : ℝ))) := by
  refine ⟨⟨?_, ?_⟩, fun hlt => ?_, fun h2 => ⟨fun hel => ?_, fun hel => ?_⟩⟩
  · rw [calc_speed_positions]
    split_ifs with hpop
    · have hne : hist.positions ≠ [] := by
        intro h0; rw [h0] at hpop; simp at hpop
      rw [List.tail_append_of_ne_nil hne]
      exact List.getLast?_concat _
    · exact List.getLast?_concat _
  · rw [calc_speed_times]
    split_ifs with hpop
    · have hne : hist.times ≠ [] := by
        intro h0
        rw [h0] at hlen
        simp at hlen
        rw [hlen] at hpop
        simp at hpop
      rw [List.tail_append_of_ne_nil hne]
      exact List.getLast?_concat _
    · exact List.getLast?_concat _
  · rw [calc_speed_value, if_neg (by omega)]
  · rw [calc_speed_value, if_pos h2, if_neg (not_lt.mpr hel)]
  · rw [calc_speed_value, if_pos h2, if_pos hel, calc_speed_positions_last]

/-- C5 witness: from an empty track history, the first observation yields a
single stored position, and the guard returns speed 0. -/
theorem speed_guarded_witness :
    (calculate_speed ⟨[], [], 0⟩ 3 4 1).1.positions.length = 1 ∧
    (calculate_speed ⟨[], [], 0⟩ 3 4 1).2 = 0 := by
  have hlen1 : (calculate_speed ⟨[], [], 0⟩ 3 4 1).1.positions.length = 1 := by
    rw [calc_speed_positions]
    norm_num
  exact ⟨hlen1, (speed_guarded ⟨[], [], 0⟩ 3 4 1 rfl).2.1 (by omega)⟩

/-- C6: every bounded history of a profile stays within the 100-entry
capacity, and after 150 observations from a fresh profile every bounded
history holds exactly 100 entries, namely the most recent 100 appended values
in order (oldest dropped on overflow, most recent last). -/
theorem bounded_histories (pid : ℕ) (t0 : ℚ) (L : List (ℚ × RiskInput)) :
    ((runObservations (PersonProfile.init pid t0) L).times.length ≤ 100 ∧
     (runObservations (PersonProfile.init pid t0) L).positions.length ≤ 100 ∧
     (runObservations (PersonProfile.init pid t0) L).zones.length ≤ 100 ∧
     (runObservations (PersonProfile.init pid t0) L).speeds.length ≤ 100 ∧
     (runObservations (PersonProfile.init pid t0) L).risk_scores.length ≤ 100) ∧
    (L.length = 150 →
      ((runObservations (PersonProfile.init pid t0) L).times.length = 100 ∧
       (runObservations (PersonProfile.init pid t0) L).positions.length = 100 ∧
       (runObservations (PersonProfile.init pid t0) L).zones.length = 100 ∧
       (runObservations (PersonProfile.init pid t0) L).speeds.length = 100 ∧
       (runObservations (PersonProfile.init pid t0) L).risk_scores.length = 100) ∧
      (runObservations (PersonProfile.init pid t0) L).times =
        (L.map fun o => o.1).drop 50 ∧
      (runObservations (PersonProfile.init pid t0) L).speeds =
        (L.map fun o => o.2.speed).drop 50 ∧
      (runObservations (PersonProfile.init pid t0) L).zones =
        (L.map fun o => o.2.zone_name).drop 50 ∧
      (runObservations (PersonProfile.init pid t0) L).positions =
        (L.map fun o => (o.2.cx, o.2.cy)).drop 50) := by
  have ht := runObservations_times L (PersonProfile.init pid t0)
  have hp := runObservations_positions L (PersonProfile.init pid t0)
  have hz := runObservations_zones L (PersonProfile.init pid t0)
  have hsp := runObservations_speeds L (PersonProfile.init pid t0)
  have hr := runObservations_risk_scores_length L (PersonProfile.init pid t0)
    (by simp [PersonProfile.init])
  have hinit : (PersonProfile.init pid t0).times = [] ∧
      (PersonProfile.init pid t0).positions = [] ∧
      (PersonProfile.init pid t0).zones = [] ∧
      (PersonProfile.init pid t0).speeds = [] ∧
      (PersonProfile.init pid t0).risk_scores = [] := ⟨rfl, rfl, rfl, rfl, rfl⟩
  constructor
  · refine ⟨?_, ?_, ?_, ?_, ?_⟩
    · rw [ht, hinit.1, foldl_dequeAppend_length _ _ (by simp)]
      simp
    · rw [hp, hinit.2.1, foldl_dequeAppend_length _ _ (by simp)]
      simp
    · rw [hz, hinit.2.2.1, foldl_dequeAppend_length _ _ (by simp)]
      simp
    · rw [hsp, hinit.2.2.2.1, foldl_dequeAppend_length _ _ (by simp)]
      simp
    · rw [hr, hinit.2.2.2.2]
      simp
  · intro h150
    refine ⟨⟨?_, ?_, ?_, ?_, ?_⟩, ?_, ?_, ?_, ?_⟩
    · rw [ht, hinit.1, foldl_dequeAppend_length _ _ (by simp)]
      simp [h150]
    · rw [hp, hinit.2.1, foldl_dequeAppend_length _ _ (by simp)]
      simp [h150]
    · rw [hz, hinit.2.2.1, foldl_dequeAppend_length _ _ (by simp)]
      simp [h150]
    · rw [hsp, hinit.2.2.2.1, foldl_dequeAppend_length _ _ (by simp)]
      simp [h150]
    · rw [hr, hinit.2.2.2.2, h150]
      simp
    · rw [ht, hinit.1, foldl_dequeAppend_drop _ _ (by simp)]
      simp [h150]
    · rw [hsp, hinit.2.2.2.1, foldl_dequeAppend_drop _ _ (by simp)]
      simp [h150]
    · rw [hz, hinit.2.2.1, foldl_dequeAppend_drop _ _ (by simp)]
      simp [h150]
    · rw [hp, hinit.2.1, foldl_dequeAppend_drop _ _ (by simp)]
      simp [h150]

/-- C6 witness: 150 identical quiet observations leave exactly 100 entries in
each bounded history. -/
theorem bounded_histories_witness :
    (List.replicate 150 ((0 : ℚ), standingOutside)).length = 150 ∧
    (runObservations (PersonProfile.init 6 0)
        (List.replicate 150 ((0 : ℚ), standingOutside))).times.length = 100 ∧
    (runObservations (PersonProfile.init 6 0)
        (List.replicate 150 ((0 : ℚ), standingOutside))).positions.length = 100 ∧
    (runObservations (PersonProfile.init 6 0)
        (List.replicate 150 ((0 : ℚ), standingOutside))).zones.length = 100 ∧
    (runObservations (PersonProfile.init 6 0)
        (List.replicate 150 ((0 : ℚ), standingOutside))).speeds.length = 100 ∧
    (runObservations (PersonProfile.init 6 0)
        (List.replicate 150 ((0 : ℚ), standingOutside))).risk_scores.length = 100 := by
  have h := (bounded_histories 6 0 (List.replicate 150 ((0 : ℚ), standingOutside))).2
    (by simp)
  exact ⟨by simp, h.1.1, h.1.2.1, h.1.2.2.1, h.1.2.2.2.1, h.1.2.2.2.2⟩

/-- C10: starting from a fresh profile, after any sequence of calculate_risk
calls the five bounded histories have exactly equal lengths — each call
appends one element to each deque and the shared capacity of 100 evicts in
lockstep, so each length is min(number of calls, 100). -/
theorem histories_lockstep (pid : ℕ) (t0 : ℚ) (L : List (ℚ × RiskInput)) :
    ((runObservations (PersonProfile.init pid t0) L).times.length = min L.length 100 ∧
     (runObservations (PersonProfile.init pid t0) L).positions.length = min L.length 100 ∧
     (runObservations (PersonProfile.init pid t0) L).zones.length = min L.length 100 ∧
     (runObservations (PersonProfile.init pid t0) L).speeds.length = min L.length 100 ∧
     (runObservations (PersonProfile.init pid t0) L).risk_scores.length = min L.length 100) ∧
    ((runObservations (PersonProfile.init pid t0) L).times.length =
       (runObservations (PersonProfile.init pid t0) L).positions.length ∧
     (runObservations (PersonProfile.init pid t0) L).positions.length =
       (runObservations (PersonProfile.init pid t0) L).zones.length ∧
     (runObservations (PersonProfile.init pid t0) L).zones.length =
       (runObservations (PersonProfile.init pid t0) L).speeds.length ∧
     (runObservations (PersonProfile.init pid t0) L).speeds.length =
       (runObservations (PersonProfile.init pid t0) L).risk_scores.length) := by
  have ht := runObservations_times L (PersonProfile.init pid t0)
  have hp := runObservations_positions L (PersonProfile.init pid t0)
  have hz := runObservations_zones L (PersonProfile.init pid t0)
  have hsp := runObservations_speeds L (PersonProfile.init pid t0)
  have hr := runObservations_risk_scores_length L (PersonProfile.init pid t0)
    (by simp [PersonProfile.init])
  have h1 : (runObservations (PersonProfile.init pid t0) L).times.length =
      min L.length 100 := by
    rw [ht, show (PersonProfile.init pid t0).times = [] from rfl,
      foldl_dequeAppend_length _ _ (by simp)]
    simp
  have h2 : (runObservations (PersonProfile.init pid t0) L).positions.length =
      min L.length 100 := by
    rw [hp, show (PersonProfile.init pid t0).positions = [] from rfl,
      foldl_dequeAppend_length _ _ (by simp)]
    simp
  have h3 : (runObservations (PersonProfile.init pid t0) L).zones.length =
      min L.length 100 := by
    rw [hz, show (PersonProfile.init pid t0).zones = [] from rfl,
      foldl_dequeAppend_length _ _ (by simp)]
    simp
  have h4 : (runObservations (PersonProfile.init pid t0) L).speeds.length =
      min L.length 100 := by
    rw [hsp, show (PersonProfile.init pid t0).speeds = [] from rfl,
      foldl_dequeAppend_length _ _ (by simp)]
    simp
  have h5 : (runObservations (PersonProfile.init pid t0) L).risk_scores.length =
      min L.length 100 := by
    rw [hr, show (PersonProfile.init pid t0).risk_scores = [] from rfl]
    simp
  exact ⟨⟨h1, h2, h3, h4, h5⟩,
    by rw [h1, h2], by rw [h2, h3], by rw [h3, h4], by rw [h4, h5]⟩

end PHRIS
